import Mathlib

/-!
Verification of the push-to-talk dictation utility (`dictate.py`) and its
companion text-to-speech utility (`tts.py`).

The two Python scripts are shallowly embedded: the mutable closure state of
`dictate.main` (`super_held`, `shift_held`, `recording`, `arecord_proc`,
`tmpfile`) becomes an explicit record `DState`, the runtime state directory
(marker files, backend flag file, temporary audio files) becomes the record
`FS`, and every externally visible action (printing, tone playback, clipboard
writes, network calls, file creation/removal) is recorded in an effect trace
`List Eff`.  Interactions with the outside world whose results the code
branches on (size of the recorded file, outcome of the transcription HTTP
call, success of the clipboard/paste subprocesses, the active-window query)
are supplied by an oracle record `Env`.  Temporary audio files are identified
by natural numbers allocated from the fresh counter `nextTmp`, standing in
for the unique names produced by `tempfile.NamedTemporaryFile`.
-/

/-- Externally visible effects of the dictation tool, in program order. -/
inductive Eff where
  | printRestarted
  | printRecording
  | printTranscribing
  | printText (s : String)
  | printEmpty
  | printNoAudio
  | printError
  | printBackend (s : String)
  | beepStart
  | beepStop
  | beepReady
  | clipboardWrite (s : String)
  | pasteKey
  | networkCall
  | touchDictating
  | removeDictating
  | touchSkip
  | touchPrev
  | touchPause
  | unlinkTmp (t : Nat)
  deriving DecidableEq, Repr

/-- The runtime state directory: existence flags for the marker files,
the content of the backend flag file (`none` = file absent), and the set of
temporary audio files currently on disk (by allocation id). -/
structure FS where
  dictating : Bool
  ttsSkip : Bool
  ttsPrev : Bool
  ttsPause : Bool
  backend : Option String
  temps : List Nat
  deriving DecidableEq, Repr

/-- The mutable closure state of `dictate.main`: the two modifier flags, the
recording flag, the recorder process handle (`arecord_proc`), the current
temporary file path (`tmpfile`), plus the fresh-name counter and the file
system. -/
structure DState where
  superHeld : Bool
  shiftHeld : Bool
  recording : Bool
  arecord : Option Nat
  tmpfile : Option Nat
  nextTmp : Nat
  fs : FS
  deriving DecidableEq, Repr

/-- Oracle for the outside world consulted by the end-command pipeline:
the size `os.path.getsize` reports for the stopped recording, the result of
the transcription HTTP call (`Except` models a raised exception), whether the
`xclip` and `xdotool` subprocesses succeed (`check=True` raises otherwise),
and whether the active window is a terminal emulator. -/
structure Env where
  fileSize : Nat
  transcribeResult : Except String String
  xclipOk : Bool
  isTerminal : Bool
  xdotoolOk : Bool

/-- `stop_recording`: interrupt and reap the recorder process if one exists,
then clear the recording flag.  (dictate.py lines 187-193) -/
def stop_recording (st : DState) : DState :=
  let st := if st.arecord.isSome then { st with arecord := none } else st
  { st with recording := false }

/-- `start_recording`: if a session is active, stop it, delete its temporary
file and report the restart; then touch the dictating marker, allocate a
fresh temporary file, set the recording flag, play the start tone, spawn the
recorder and report that recording is in progress.  (dictate.py 195-214) -/
def start_recording (st : DState) : DState × List Eff :=
  let (st, effs) :=
    if st.recording then
      let st := stop_recording st
      let (st, effs) :=
        match st.tmpfile with
        | some t =>
            ({ st with fs := { st.fs with temps := st.fs.temps.erase t } },
             [Eff.unlinkTmp t])
        | none => (st, ([] : List Eff))
      (st, effs ++ [Eff.printRestarted])
    else (st, ([] : List Eff))
  let st := { st with fs := { st.fs with dictating := true } }
  let t := st.nextTmp
  let st := { st with
    tmpfile := some t
    nextTmp := t + 1
    fs := { st.fs with temps := t :: st.fs.temps } }
  let st := { st with recording := true }
  let st := { st with arecord := some t }
  (st, effs ++ [Eff.touchDictating, Eff.beepStart, Eff.printRecording])

/-- The character filter of `copy_and_paste`:
`''.join(c for c in text if c >= ' ')`.  A single-character Python string
comparison `c >= ' '` holds exactly when the code point is at least U+0020. -/
def stripControl (text : String) : String :=
  String.mk (text.data.filter fun c => ' ' ≤ c)

/-- `copy_and_paste`: strip control characters, write the result to the
clipboard via `xclip`, and if the active window is a terminal, send the
terminal paste keystroke via `xdotool`.  Returns the emitted effects and
whether the call completed without an exception.  (dictate.py 141-147) -/
def copy_and_paste (text : String) (env : Env) : List Eff × Bool :=
  let stripped := stripControl text
  if !env.xclipOk then ([Eff.clipboardWrite stripped], false)
  else if env.isTerminal then
    ([Eff.clipboardWrite stripped, Eff.pasteKey], env.xdotoolOk)
  else ([Eff.clipboardWrite stripped], true)

/-- `stop_and_transcribe`: stop the recorder, play the stop tone, then run
the try/except/finally pipeline: transcribe and paste when there is a
non-empty file, report `(empty)`/`(no audio)`/`ERROR` otherwise, and in the
`finally` block delete the temporary file (if any) and remove the dictating
marker.  (dictate.py 216-241) -/
def stop_and_transcribe (st : DState) (env : Env) : DState × List Eff :=
  let st := stop_recording st
  let effsTry : List Eff :=
    match st.tmpfile with
    | some _ =>
        if 0 < env.fileSize then
          match env.transcribeResult with
          | .error _ =>
              [Eff.printTranscribing, Eff.networkCall, Eff.printError]
          | .ok text =>
              if text = "" then
                [Eff.printTranscribing, Eff.networkCall, Eff.printEmpty]
              else
                let (pasteEffs, ok) := copy_and_paste text env
                [Eff.printTranscribing, Eff.networkCall, Eff.printText text]
                  ++ pasteEffs
                  ++ (if ok then [Eff.beepReady] else [Eff.printError])
        else [Eff.printNoAudio]
    | none => [Eff.printNoAudio]
  let (st, effsFin) :=
    match st.tmpfile with
    | some t =>
        ({ st with
            tmpfile := none
            fs := { st.fs with temps := st.fs.temps.erase t } },
         [Eff.unlinkTmp t])
    | none => (st, ([] : List Eff))
  let st := { st with fs := { st.fs with dictating := false } }
  (st, Eff.beepStop :: effsTry ++ effsFin ++ [Eff.removeDictating])

/-- Key identifiers: the modifier key sets `SUPER_KEYS`/`SHIFT_KEYS` are
each collapsed to one identifier, the five trigger keys are named, and
`otherK` stands for every remaining key. -/
inductive Key where
  | superK
  | shiftK
  | f5
  | f6
  | f7
  | f8
  | f9
  | otherK
  deriving DecidableEq, Repr

/-- Python `str.strip` whitespace set (ASCII portion): space, tab, newline,
carriage return, vertical tab, form feed. -/
def pyIsSpace (c : Char) : Bool :=
  c = ' ' || c = '\t' || c = '\n' || c = '\x0d' || c = '\x0b' || c = '\x0c'

/-- Models Python `str.strip()`: drop leading and trailing whitespace. -/
def pyStrip (s : String) : String :=
  String.mk (((s.data.dropWhile pyIsSpace).reverse.dropWhile pyIsSpace).reverse)

/-- `on_press`: modifier presses only set the corresponding held flag; every
other key is ignored unless the super modifier is held; F5 starts (or
restarts) recording, F6 stops and transcribes only while recording, F7
touches the prev/skip marker depending on shift, F8 touches the pause
marker, F9 toggles the TTS backend flag file (absent file reads as
`piper`).  (dictate.py 246-276) -/
def on_press (st : DState) (env : Env) (key : Key) : DState × List Eff :=
  match key with
  | .superK => ({ st with superHeld := true }, [])
  | .shiftK => ({ st with shiftHeld := true }, [])
  | k =>
    if !st.superHeld then (st, [])
    else
      match k with
      | .f5 => start_recording st
      | .f6 => if st.recording then stop_and_transcribe st env else (st, [])
      | .f7 =>
          if st.shiftHeld then
            ({ st with fs := { st.fs with ttsPrev := true } }, [Eff.touchPrev])
          else
            ({ st with fs := { st.fs with ttsSkip := true } }, [Eff.touchSkip])
      | .f8 =>
          ({ st with fs := { st.fs with ttsPause := true } }, [Eff.touchPause])
      | .f9 =>
          let current :=
            match st.fs.backend with
            | none => "piper"
            | some s => pyStrip s
          let newBackend := if current = "piper" then "openai" else "piper"
          ({ st with fs := { st.fs with backend := some newBackend } },
           [Eff.printBackend newBackend])
      | _ => (st, [])

/-- `on_release`: releasing a modifier clears its held flag; every other
release does nothing.  (dictate.py 278-283) -/
def on_release (st : DState) (key : Key) : DState :=
  match key with
  | .superK => { st with superHeld := false }
  | .shiftK => { st with shiftHeld := false }
  | _ => st

/-- A key-transition event as delivered by the listener. -/
structure KeyEvent where
  key : Key
  pressed : Bool
  deriving DecidableEq, Repr

/-- One step of the hotkey state machine: dispatch to `on_press` or
`on_release` according to the transition direction. -/
def step (st : DState) (env : Env) (e : KeyEvent) : DState × List Eff :=
  if e.pressed then on_press st env e.key else (on_release st e.key, [])

/-- The state of `dictate.main` right after initialisation: no modifier
held, no session, empty state directory. -/
def initState : DState :=
  { superHeld := false
    shiftHeld := false
    recording := false
    arecord := none
    tmpfile := none
    nextTmp := 0
    fs :=
      { dictating := false
        ttsSkip := false
        ttsPrev := false
        ttsPause := false
        backend := none
        temps := [] } }

/-- Iterate `start_recording` (the begin-command) `n` times, accumulating
the effect trace. -/
def iterStart (st : DState) : Nat → DState × List Eff
  | 0 => (st, [])
  | n + 1 =>
      let p := start_recording st
      let q := iterStart p.1 n
      (q.1, p.2 ++ q.2)

/-- Prefix test on character lists (Python string matching helper). -/
def leadsWith : List Char → List Char → Bool
  | [], _ => true
  | _ :: _, [] => false
  | a :: as, b :: bs => a == b && leadsWith as bs

/-- Contiguous-substring test on character lists: Python's `m in s`. -/
def containsSeq (m : List Char) : List Char → Bool
  | [] => leadsWith m []
  | c :: t => leadsWith m (c :: t) || containsSeq m t

/-- `m in s` on strings, as used by `detect_language`. -/
def occursIn (m s : String) : Bool :=
  containsSeq m.data s.data

/-- Models Python `str.lower` on one character for the Basic Latin and
Latin-1/Latin-Extended-A characters relevant to the French markers:
`A`-`Z`, `À`-`Þ` (excluding `×`), `Œ` and `Ÿ` map to their lowercase forms;
every other character is returned unchanged. -/
def pyLowerChar (c : Char) : Char :=
  let n := c.toNat
  if 65 ≤ n ∧ n ≤ 90 then Char.ofNat (n + 32)
  else if 192 ≤ n ∧ n ≤ 222 ∧ n ≠ 215 then Char.ofNat (n + 32)
  else if n = 338 then Char.ofNat 339
  else if n = 376 then Char.ofNat 255
  else c

/-- Models Python `str.lower` (`text.lower()` in `detect_language`). -/
def pyLower (s : String) : String :=
  String.mk (s.data.map pyLowerChar)

/-- The fixed list of French marker substrings of `detect_language`.
(tts.py 91-94) -/
def french_markers : List String :=
  ["à", "é", "è", "ê", "ë", "ï", "ô", "ù", "û", "ü", "ÿ", "ç", "œ", "æ",
   " le ", " la ", " les ", " des ", " du ", " un ", " une ",
   " est ", " sont ", " dans ", " pour ", " avec ", " que ",
   " qui ", " nous ", " vous ", " c'est ", " j'ai ", " n'est "]

/-- The number of French markers that occur (at least once) as substrings
of the lowercased text: `sum(1 for m in french_markers if m in text_lower)`. -/
def frMarkerCount (text : String) : Nat :=
  (french_markers.filter fun m => occursIn m (pyLower text)).length

/-- `detect_language`: French when at least three markers occur in the
lowercased text, English otherwise.  (tts.py 89-97) -/
def detect_language (text : String) : String :=
  if 3 ≤ frMarkerCount text then "fr" else "en"

/-- Piper voice model paths.  (tts.py 46-47) -/
def PIPER_MODEL_FR : String := "/tmp/piper-voices/fr_medium.onnx"

def PIPER_MODEL_EN : String := "/tmp/piper-voices/en_medium.onnx"

/-- The voice model `speak_piper` passes to the local engine, chosen by
`detect_language`.  (tts.py 100-102) -/
def speak_piper_model (text : String) : String :=
  if detect_language text = "fr" then PIPER_MODEL_FR else PIPER_MODEL_EN

/-- `_read_backend`: the stripped content of the backend flag file, or
`piper` when the file is absent (`FileNotFoundError`).  (tts.py 31-36) -/
def _read_backend (backendFile : Option String) : String :=
  match backendFile with
  | some s => pyStrip s
  | none => "piper"

/-- `USE_OPENAI = _read_backend() == 'openai'`.  (tts.py 38) -/
def USE_OPENAI (backendFile : Option String) : Bool :=
  _read_backend backendFile = "openai"

/-- The observable outcome of one invocation of the speech-synthesis
utility: early successful exit with no output, or an invocation of exactly
one backend with the trimmed text (and, for Piper, the chosen voice model). -/
inductive TtsAction where
  | exited
  | spokeOpenai (text : String)
  | spokePiper (text : String) (model : String)
  deriving DecidableEq, Repr

/-- Top level of `tts.py`: read all of stdin, strip it, exit successfully
when empty, otherwise dispatch on the backend flag.  (tts.py 49-51,
130-133) -/
def tts_main (stdinContent : String) (backendFile : Option String) : TtsAction :=
  let text := pyStrip stdinContent
  if text = "" then .exited
  else if USE_OPENAI backendFile then .spokeOpenai text
  else .spokePiper text (speak_piper_model text)

/-- The effect trace of one run of the end-command pipeline. -/
def endEffs (st : DState) (env : Env) : List Eff :=
  (stop_and_transcribe st env).2

/-- A sample environment oracle used to instantiate universally quantified
theorems at concrete inputs. -/
def exEnv : Env :=
  { fileSize := 0
    transcribeResult := .ok ""
    xclipOk := true
    isTerminal := false
    xdotoolOk := true }

/-- The session invariant: exactly one recording session is active — the
recording flag is set, the recorder process and the tracked temporary file
agree on a single id `t`, the only temporary file on disk is `t`, and the
dictating marker is present. -/
def activeInv (st : DState) : Prop :=
  ∃ t, st.recording = true ∧ st.tmpfile = some t ∧ st.arecord = some t ∧
    st.fs.temps = [t] ∧ st.fs.dictating = true

lemma stop_recording_tmpfile (st : DState) :
    (stop_recording st).tmpfile = st.tmpfile := by
  simp only [stop_recording]
  split <;> rfl

lemma stop_recording_fs (st : DState) :
    (stop_recording st).fs = st.fs := by
  simp only [stop_recording]
  split <;> rfl

/-- `copy_and_paste` emits the clipboard write of the stripped text,
optionally followed by the terminal paste keystroke, and nothing else. -/
lemma copy_and_paste_shape (text : String) (env : Env) :
    (copy_and_paste text env).1 = [Eff.clipboardWrite (stripControl text)] ∨
    (copy_and_paste text env).1 =
      [Eff.clipboardWrite (stripControl text), Eff.pasteKey] := by
  simp only [copy_and_paste]
  split
  · exact Or.inl rfl
  · split
    · exact Or.inr rfl
    · exact Or.inl rfl

/-- C4: an end-command (Super+F6) with no active session leaves the state
unchanged and emits no effect — no tone, no marker change, no file change —
and `stop_recording` with no session is the identity. -/
theorem c4_stop_noop (st : DState) (env : Env) (h : st.recording = false) :
    on_press st env Key.f6 = (st, []) ∧
    (st.arecord = none → stop_recording st = st) := by
  constructor
  · simp only [on_press, h]
    split <;> simp
  · intro ha
    simp only [stop_recording, ha, Option.isSome_none, Bool.false_eq_true,
      if_false]
    cases st
    simp_all

/-- Witness for C4 at the initial state. -/
theorem c4_witness :
    initState.recording = false ∧
    (on_press initState exEnv Key.f6 = (initState, []) ∧
      (initState.arecord = none → stop_recording initState = initState)) :=
  ⟨rfl, c4_stop_noop initState exEnv rfl⟩

/-- C5 fails on the code at the spec's own example: the marker `" c'est "`
carries surrounding spaces and does not match at the start of the string, so
`"c'est une belle journée"` contains only two markers (`'é'` and `" une "`)
and the code selects the English voice model, not the French one. -/
theorem c5_counterexample :
    frMarkerCount "c'est une belle journée" = 2 ∧
    detect_language "c'est une belle journée" ≠ "fr" ∧
    detect_language "c'est une belle journée" = "en" ∧
    speak_piper_model "c'est une belle journée" = PIPER_MODEL_EN := by
  refine ⟨by decide, by decide, by decide, by decide⟩

/-- C5 (amended): the heuristic counts how many distinct markers of the
fixed French list occur in the lowercased input; at least three distinct
markers select French, one or zero select English; in particular
`"c'est une belle journée"` (two markers) and `"hello world"` (zero
markers) both select English. -/
theorem c5_amended_detect_language (text : String) :
    (3 ≤ frMarkerCount text → detect_language text = "fr") ∧
    (frMarkerCount text ≤ 1 → detect_language text = "en") ∧
    detect_language "c'est une belle journée" = "en" ∧
    detect_language "hello world" = "en" ∧
    speak_piper_model "hello world" = PIPER_MODEL_EN ∧
    speak_piper_model "c'est une belle journée à la plage" = PIPER_MODEL_FR := by
  refine ⟨?_, ?_, by decide, by decide, by decide, by decide⟩
  · intro h
    simp [detect_language, h]
  · intro h
    have h3 : ¬ 3 ≤ frMarkerCount text := by omega
    simp [detect_language, h3]

/-- Witness for C5 at `"hello world"`. -/
theorem c5_witness :
    frMarkerCount "hello world" ≤ 1 ∧ detect_language "hello world" = "en" :=
  ⟨by decide, (c5_amended_detect_language "hello world").2.1 (by decide)⟩

/-- C8: the Paste Dispatcher places on the clipboard exactly the input with
every character of code point below U+0020 removed, in order: the clipboard
write is the first emitted effect and its payload is the filter of the
input's characters by `32 ≤ code point`; in particular `"foo\x07bar"`
yields `"foobar"`. -/
theorem c8_strip_control (text : String) (env : Env) :
    (stripControl text).data = text.data.filter (fun c => 32 ≤ c.toNat) ∧
    (copy_and_paste text env).1.head? =
      some (Eff.clipboardWrite (stripControl text)) ∧
    stripControl "foo\x07bar" = "foobar" := by
  refine ⟨?_, ?_, by decide⟩
  · show text.data.filter (fun c => ' ' ≤ c) = _
    apply List.filter_congr
    intro c _
    simp only [decide_eq_decide]
    exact Iff.rfl
  · rcases copy_and_paste_shape text env with h | h <;> simp [h]

/-- C10: when standard input is empty after stripping whitespace, the
speech-synthesis utility exits successfully without invoking either
backend and produces no output. -/
theorem c10_empty_stdin_exits (stdinContent : String)
    (backendFile : Option String) (h : pyStrip stdinContent = "") :
    tts_main stdinContent backendFile = TtsAction.exited := by
  simp [tts_main, h]

/-- Witness for C10 on whitespace-only input. -/
theorem c10_witness :
    pyStrip "  \t\x0a " = "" ∧ tts_main "  \t\x0a " none = TtsAction.exited :=
  ⟨by decide, c10_empty_stdin_exits "  \t\x0a " none (by decide)⟩

/-- C6: on states whose backend flag holds a value of the documented closed
set (absent, `piper` or `openai`), pressing the toggle hotkey twice restores
the value the flag reads as; toggling from an absent file writes `openai`
and toggling again writes `piper`; an absent file reads as `piper` (the
local engine) both in the dictation tool and in the synthesis utility. -/
theorem c6_toggle_involution (st : DState) (env : Env)
    (hs : st.superHeld = true)
    (hb : st.fs.backend = none ∨ st.fs.backend = some "piper" ∨
      st.fs.backend = some "openai") :
    _read_backend
        ((on_press (on_press st env Key.f9).1 env Key.f9).1.fs.backend) =
      _read_backend st.fs.backend ∧
    (st.fs.backend = none →
      (on_press st env Key.f9).1.fs.backend = some "openai" ∧
      (on_press (on_press st env Key.f9).1 env Key.f9).1.fs.backend =
        some "piper") ∧
    _read_backend none = "piper" ∧
    USE_OPENAI none = false := by
  rcases hb with h | h | h <;>
    simp [on_press, hs, h, _read_backend, USE_OPENAI, pyStrip, pyIsSpace]

/-- Witness for C6 from the absent-flag state. -/
theorem c6_witness :
    ({ initState with superHeld := true } : DState).superHeld = true ∧
    ({ initState with superHeld := true } : DState).fs.backend = none ∧
    (on_press { initState with superHeld := true } exEnv Key.f9).1.fs.backend =
      some "openai" ∧
    (on_press (on_press { initState with superHeld := true } exEnv Key.f9).1
        exEnv Key.f9).1.fs.backend = some "piper" :=
  ⟨rfl, rfl,
    ((c6_toggle_involution { initState with superHeld := true } exEnv rfl
      (Or.inl rfl)).2.1 rfl).1,
    ((c6_toggle_involution { initState with superHeld := true } exEnv rfl
      (Or.inl rfl)).2.1 rfl).2⟩

/-- C9: any flag-file content that does not strip to `openai` makes the
synthesis utility select the local engine; the toggle hotkey writes
`openai` exactly when the current content reads as `piper` (which includes
the absent file), and from any other content — unknown or `openai` — it
writes `piper`. -/
theorem c9_unknown_backend_local (s : String) (st : DState) (env : Env)
    (hs : st.superHeld = true) :
    (pyStrip s ≠ "openai" → USE_OPENAI (some s) = false) ∧
    (pyStrip s ≠ "openai" → ∀ input, pyStrip input ≠ "" →
      tts_main input (some s) =
        TtsAction.spokePiper (pyStrip input)
          (speak_piper_model (pyStrip input))) ∧
    ((on_press st env Key.f9).1.fs.backend = some "openai" ↔
      _read_backend st.fs.backend = "piper") ∧
    (_read_backend st.fs.backend ≠ "piper" →
      (on_press st env Key.f9).1.fs.backend = some "piper") := by
  refine ⟨?_, ?_, ?_, ?_⟩
  · intro h
    simp [USE_OPENAI, _read_backend, h]
  · intro h input hin
    have hu : USE_OPENAI (some s) = false := by
      simp [USE_OPENAI, _read_backend, h]
    simp [tts_main, hin, hu]
  · simp only [on_press, hs]
    cases hb : st.fs.backend with
    | none => simp [_read_backend]
    | some v =>
        by_cases hv : pyStrip v = "piper" <;>
          simp [_read_backend, hv]
  · intro h
    simp only [on_press, hs]
    cases hb : st.fs.backend with
    | none => simp [_read_backend, hb] at h
    | some v =>
        have hv : pyStrip v ≠ "piper" := by
          simpa [_read_backend, hb] using h
        simp [hv]

/-- The dictation state used to witness C9: super held, flag file holding
unknown content. -/
def garbageState : DState :=
  { initState with
      superHeld := true
      fs := { initState.fs with backend := some "garbage" } }

/-- Witness for C9 at the unknown content `"garbage"`. -/
theorem c9_witness :
    pyStrip "garbage" ≠ "openai" ∧
    USE_OPENAI (some "garbage") = false ∧
    _read_backend garbageState.fs.backend ≠ "piper" ∧
    (on_press garbageState exEnv Key.f9).1.fs.backend = some "piper" :=
  ⟨by decide,
    (c9_unknown_backend_local "garbage" garbageState exEnv rfl).1 (by decide),
    by decide,
    (c9_unknown_backend_local "garbage" garbageState exEnv rfl).2.2.2
      (by decide)⟩

/-- C7: a press or release of a modifier key only updates the corresponding
held flag and emits nothing; a release of any other key changes nothing and
emits nothing; a press of any other key while the trigger modifier is not
held changes nothing and emits nothing; a press of the nav-skip key with the
trigger modifier held creates exactly one marker — the go-back marker when
the secondary modifier is held, else the skip-forward marker. -/
theorem c7_hotkey_dispatch (st : DState) (env : Env) :
    (∀ pressed,
      step st env ⟨Key.superK, pressed⟩ =
        ({ st with superHeld := pressed }, []) ∧
      step st env ⟨Key.shiftK, pressed⟩ =
        ({ st with shiftHeld := pressed }, [])) ∧
    (∀ k, k ≠ Key.superK → k ≠ Key.shiftK →
      step st env ⟨k, false⟩ = (st, [])) ∧
    (∀ k, k ≠ Key.superK → k ≠ Key.shiftK → st.superHeld = false →
      step st env ⟨k, true⟩ = (st, [])) ∧
    (st.superHeld = true →
      (st.shiftHeld = true →
        step st env ⟨Key.f7, true⟩ =
          ({ st with fs := { st.fs with ttsPrev := true } },
           [Eff.touchPrev])) ∧
      (st.shiftHeld = false →
        step st env ⟨Key.f7, true⟩ =
          ({ st with fs := { st.fs with ttsSkip := true } },
           [Eff.touchSkip]))) := by
  refine ⟨?_, ?_, ?_, ?_⟩
  · intro pressed
    cases pressed <;> constructor <;> rfl
  · intro k h1 h2
    cases k <;> simp_all [step, on_release]
  · intro k h1 h2 hsup
    cases k <;> simp_all [step, on_press]
  · intro hsup
    constructor <;> intro hsh <;> simp [step, on_press, hsup, hsh]

/-- Witness for C7: with no modifier held, pressing the begin key changes
nothing and dispatches nothing. -/
theorem c7_witness :
    Key.f5 ≠ Key.superK ∧ Key.f5 ≠ Key.shiftK ∧
    initState.superHeld = false ∧
    step initState exEnv ⟨Key.f5, true⟩ = (initState, []) :=
  ⟨by decide, by decide, rfl,
    (c7_hotkey_dispatch initState exEnv).2.2.1 Key.f5 (by decide) (by decide)
      rfl⟩

/-- A begin-command on an active session restarts it: the invariant is
preserved with a fresh temporary file, exactly one restart status is
printed, and the dictating marker is never removed. -/
lemma start_recording_active (st : DState) (h : activeInv st) :
    activeInv (start_recording st).1 ∧
    (start_recording st).2.count Eff.printRestarted = 1 ∧
    (start_recording st).2.count Eff.removeDictating = 0 ∧
    (start_recording st).1.fs.dictating = true := by
  obtain ⟨t, hrec, htmp, harec, htemps, hdict⟩ := h
  refine ⟨⟨st.nextTmp, ?_, ?_, ?_, ?_, ?_⟩, ?_, ?_, ?_⟩ <;>
    simp [start_recording, stop_recording, hrec, htmp, harec, htemps, hdict,
      List.count_cons]

/-- Iterating begin-commands from an active session preserves the invariant
and prints one restart status per iteration. -/
lemma iterStart_active (n : Nat) (st : DState) (h : activeInv st) :
    activeInv (iterStart st n).1 ∧
    (iterStart st n).2.count Eff.printRestarted = n ∧
    (iterStart st n).2.count Eff.removeDictating = 0 := by
  induction n generalizing st with
  | zero =>
      exact ⟨by simpa [iterStart] using h, by simp [iterStart],
        by simp [iterStart]⟩
  | succ n ih =>
      obtain ⟨ha, hc1, hc0, _⟩ := start_recording_active st h
      obtain ⟨ha', hc1', hc0'⟩ := ih (start_recording st).1 ha
      refine ⟨?_, ?_, ?_⟩
      · simpa [iterStart] using ha'
      · simp [iterStart, List.count_append, hc1, hc1']
        omega
      · simp [iterStart, List.count_append, hc0, hc0']
  
/-- C1: after any positive number of begin-commands from the initial state
with no intervening end-command, exactly one recording session is active
(one recording flag, one recorder process, and the sole temporary file on
disk is the live one — every superseded session's file has been deleted),
exactly one restart status was printed per superseded session, and the
dictating marker was never removed and is present at the end. -/
theorem c1_begin_sequence_invariant (n : Nat) (h : 0 < n) :
    activeInv (iterStart initState n).1 ∧
    (iterStart initState n).2.count Eff.printRestarted = n - 1 ∧
    (iterStart initState n).2.count Eff.removeDictating = 0 ∧
    (iterStart initState n).1.fs.dictating = true := by
  obtain ⟨m, rfl⟩ : ∃ m, n = m + 1 := ⟨n - 1, by omega⟩
  have h0 : activeInv (start_recording initState).1 :=
    ⟨0, rfl, rfl, rfl, rfl, rfl⟩
  obtain ⟨ha, h1, h2⟩ := iterStart_active m (start_recording initState).1 h0
  have hc1 : (start_recording initState).2.count Eff.printRestarted = 0 := by
    decide
  have hc0 : (start_recording initState).2.count Eff.removeDictating = 0 := by
    decide
  refine ⟨?_, ?_, ?_, ?_⟩
  · simpa [iterStart] using ha
  · simp [iterStart, List.count_append, hc1, h1]
  · simp [iterStart, List.count_append, hc0, h2]
  · obtain ⟨t, _, _, _, _, hdict⟩ := ha
    simpa [iterStart] using hdict

/-- Witness for C1 at a sequence of three begin-commands. -/
theorem c1_witness :
    0 < 3 ∧
    (activeInv (iterStart initState 3).1 ∧
      (iterStart initState 3).2.count Eff.printRestarted = 2 ∧
      (iterStart initState 3).2.count Eff.removeDictating = 0 ∧
      (iterStart initState 3).1.fs.dictating = true) :=
  ⟨by decide, c1_begin_sequence_invariant 3 (by decide)⟩

/-- Pipeline shape, no-path case: stopping produced no temporary file, so
the no-audio status is reported and only the marker is removed. -/
lemma sat_none (st : DState) (env : Env) (h : st.tmpfile = none) :
    stop_and_transcribe st env =
      ({ stop_recording st with
          fs := { st.fs with dictating := false } },
       [Eff.beepStop, Eff.printNoAudio, Eff.removeDictating]) := by
  simp [stop_and_transcribe, stop_recording_tmpfile, stop_recording_fs, h]

/-- Pipeline shape, empty-file case: the recorded file has size zero, so
the no-audio status is reported, the file is deleted and the marker is
removed. -/
lemma sat_noaudio (st : DState) (env : Env) (t : Nat)
    (h : st.tmpfile = some t) (h0 : env.fileSize = 0) :
    stop_and_transcribe st env =
      ({ stop_recording st with
          tmpfile := none
          fs := { st.fs with
            dictating := false
            temps := st.fs.temps.erase t } },
       [Eff.beepStop, Eff.printNoAudio, Eff.unlinkTmp t,
        Eff.removeDictating]) := by
  simp [stop_and_transcribe, stop_recording_tmpfile, stop_recording_fs, h, h0]

/-- Pipeline shape, transcription-failure case: the network call raises, the
error status is reported, the file is deleted and the marker is removed. -/
lemma sat_error (st : DState) (env : Env) (t : Nat) (e : String)
    (h : st.tmpfile = some t) (h0 : 0 < env.fileSize)
    (he : env.transcribeResult = .error e) :
    stop_and_transcribe st env =
      ({ stop_recording st with
          tmpfile := none
          fs := { st.fs with
            dictating := false
            temps := st.fs.temps.erase t } },
       [Eff.beepStop, Eff.printTranscribing, Eff.networkCall, Eff.printError,
        Eff.unlinkTmp t, Eff.removeDictating]) := by
  simp [stop_and_transcribe, stop_recording_tmpfile, stop_recording_fs, h,
    h0, he]

/-- Pipeline shape, empty-transcript case: the transcription succeeds with
empty text, the `(empty)` status is reported with no paste action, the file
is deleted and the marker is removed. -/
lemma sat_empty (st : DState) (env : Env) (t : Nat)
    (h : st.tmpfile = some t) (h0 : 0 < env.fileSize)
    (he : env.transcribeResult = .ok "") :
    stop_and_transcribe st env =
      ({ stop_recording st with
          tmpfile := none
          fs := { st.fs with
            dictating := false
            temps := st.fs.temps.erase t } },
       [Eff.beepStop, Eff.printTranscribing, Eff.networkCall, Eff.printEmpty,
        Eff.unlinkTmp t, Eff.removeDictating]) := by
  simp [stop_and_transcribe, stop_recording_tmpfile, stop_recording_fs, h,
    h0, he]

/-- Pipeline shape, non-empty-transcript case: the text is echoed and passed
to the Paste Dispatcher, the ready tone plays when pasting succeeded (else
the error status is reported), the file is deleted and the marker is
removed. -/
lemma sat_text (st : DState) (env : Env) (t : Nat) (text : String)
    (h : st.tmpfile = some t) (h0 : 0 < env.fileSize)
    (he : env.transcribeResult = .ok text) (hne : text ≠ "") :
    stop_and_transcribe st env =
      ({ stop_recording st with
          tmpfile := none
          fs := { st.fs with
            dictating := false
            temps := st.fs.temps.erase t } },
       [Eff.beepStop, Eff.printTranscribing, Eff.networkCall,
        Eff.printText text]
         ++ (copy_and_paste text env).1
         ++ (if (copy_and_paste text env).2 then [Eff.beepReady]
             else [Eff.printError])
         ++ [Eff.unlinkTmp t, Eff.removeDictating]) := by
  simp [stop_and_transcribe, stop_recording_tmpfile, stop_recording_fs, h,
    h0, he, hne]

/-- Cleanup facts common to every pipeline outcome: the marker ends absent
and is removed exactly once, and a tracked temporary file is unlinked
exactly once. -/
lemma sat_cleanup (st : DState) (env : Env) :
    (stop_and_transcribe st env).1.fs.dictating = false ∧
    (endEffs st env).count Eff.removeDictating = 1 ∧
    (∀ t, st.tmpfile = some t →
      (stop_and_transcribe st env).1.tmpfile = none ∧
      (stop_and_transcribe st env).1.fs.temps = st.fs.temps.erase t ∧
      (endEffs st env).count (Eff.unlinkTmp t) = 1) := by
  rcases htmp : st.tmpfile with _ | t
  · rw [show endEffs st env = (stop_and_transcribe st env).2 from rfl,
      sat_none st env htmp]
    simp
  · have key : (stop_and_transcribe st env).1.fs.dictating = false ∧
        (endEffs st env).count Eff.removeDictating = 1 ∧
        (stop_and_transcribe st env).1.tmpfile = none ∧
        (stop_and_transcribe st env).1.fs.temps = st.fs.temps.erase t ∧
        (endEffs st env).count (Eff.unlinkTmp t) = 1 := by
      by_cases h0 : 0 < env.fileSize
      · rcases henv : env.transcribeResult with e | text
        · rw [show endEffs st env = (stop_and_transcribe st env).2 from rfl,
            sat_error st env t e htmp h0 henv]
          simp
        · by_cases ht : text = ""
          · subst ht
            rw [show endEffs st env = (stop_and_transcribe st env).2 from rfl,
              sat_empty st env t htmp h0 henv]
            simp
          · rw [show endEffs st env = (stop_and_transcribe st env).2 from rfl,
              sat_text st env t text htmp h0 henv ht]
            rcases copy_and_paste_shape text env with hcp | hcp <;>
              cases hok : (copy_and_paste text env).2 <;>
              simp [hcp, hok, List.count_append, List.count_cons]
      · have h0' : env.fileSize = 0 := by omega
        rw [show endEffs st env = (stop_and_transcribe st env).2 from rfl,
          sat_noaudio st env t htmp h0']
        simp
    exact ⟨key.1, key.2.1, fun t' ht' => by
      cases ht'
      exact ⟨key.2.2.1, key.2.2.2.1, key.2.2.2.2⟩⟩

/-- C2: for every state and every environment outcome — non-empty transcript
pasted, empty transcript, empty or absent audio file, or an exception raised
anywhere in the pipeline — the end-command pipeline removes the dictating
marker exactly once and deletes the tracked temporary audio file exactly
once; and a begin-command (restart included) never removes the marker. -/
theorem c2_cleanup_guarantee (st : DState) (env : Env) :
    (stop_and_transcribe st env).1.fs.dictating = false ∧
    (endEffs st env).count Eff.removeDictating = 1 ∧
    (∀ t, st.tmpfile = some t → st.fs.temps = [t] →
      (stop_and_transcribe st env).1.tmpfile = none ∧
      (stop_and_transcribe st env).1.fs.temps = [] ∧
      (endEffs st env).count (Eff.unlinkTmp t) = 1) ∧
    (start_recording st).1.fs.dictating = true ∧
    (start_recording st).2.count Eff.removeDictating = 0 := by
  obtain ⟨h1, h2, h3⟩ := sat_cleanup st env
  refine ⟨h1, h2, ?_, ?_, ?_⟩
  · intro t ht htemps
    obtain ⟨g1, g2, g3⟩ := h3 t ht
    refine ⟨g1, ?_, g3⟩
    rw [g2, htemps]
    simp
  · by_cases hr : st.recording <;>
      cases harec : st.arecord <;>
      cases htmp : st.tmpfile <;>
      simp [start_recording, stop_recording, hr, harec, htmp]
  · by_cases hr : st.recording <;>
      cases harec : st.arecord <;>
      cases htmp : st.tmpfile <;>
      simp [start_recording, stop_recording, hr, harec, htmp,
        List.count_cons, List.count_append]

/-- The state after one begin-command from the initial state: a live
session on temporary file `0`. -/
def activeState : DState := (start_recording initState).1

/-- Witness for C2 on the live session state under the empty-file
environment. -/
theorem c2_witness :
    activeState.tmpfile = some 0 ∧ activeState.fs.temps = [0] ∧
    (stop_and_transcribe activeState exEnv).1.fs.dictating = false ∧
    (endEffs activeState exEnv).count Eff.removeDictating = 1 ∧
    (stop_and_transcribe activeState exEnv).1.tmpfile = none ∧
    (stop_and_transcribe activeState exEnv).1.fs.temps = [] ∧
    (endEffs activeState exEnv).count (Eff.unlinkTmp 0) = 1 := by
  obtain ⟨h1, h2, h3, _, _⟩ := c2_cleanup_guarantee activeState exEnv
  obtain ⟨g1, g2, g3⟩ := h3 0 (by decide) (by decide)
  exact ⟨by decide, by decide, h1, h2, g1, g2, g3⟩

/-- C3: on an end-command, an absent path or an empty recorded file yields
the no-audio status with no network call, no clipboard write and no ready
tone; a successful transcription returning empty text yields the `(empty)`
status after the network call, with no clipboard write, no paste keystroke
and no ready tone; and a clipboard write, paste keystroke or ready tone can
only occur when the transcription succeeded with non-empty text. -/
theorem c3_end_command_outcomes (st : DState) (env : Env) :
    ((st.tmpfile = none ∨ env.fileSize = 0) →
      Eff.printNoAudio ∈ endEffs st env ∧
      Eff.networkCall ∉ endEffs st env ∧
      (∀ s, Eff.clipboardWrite s ∉ endEffs st env) ∧
      Eff.beepReady ∉ endEffs st env) ∧
    (∀ t, st.tmpfile = some t → 0 < env.fileSize →
      env.transcribeResult = .ok "" →
      Eff.printEmpty ∈ endEffs st env ∧
      Eff.networkCall ∈ endEffs st env ∧
      (∀ s, Eff.clipboardWrite s ∉ endEffs st env) ∧
      Eff.pasteKey ∉ endEffs st env ∧
      Eff.beepReady ∉ endEffs st env) ∧
    ((Eff.beepReady ∈ endEffs st env ∨ Eff.pasteKey ∈ endEffs st env ∨
        (∃ s, Eff.clipboardWrite s ∈ endEffs st env)) →
      ∃ text, env.transcribeResult = .ok text ∧ text ≠ "") := by
  refine ⟨?_, ?_, ?_⟩
  · rintro (htmp | h0)
    · rw [show endEffs st env = (stop_and_transcribe st env).2 from rfl,
        sat_none st env htmp]
      simp
    · rcases htmp : st.tmpfile with _ | t
      · rw [show endEffs st env = (stop_and_transcribe st env).2 from rfl,
          sat_none st env htmp]
        simp
      · rw [show endEffs st env = (stop_and_transcribe st env).2 from rfl,
          sat_noaudio st env t htmp h0]
        simp
  · intro t htmp h0 he
    rw [show endEffs st env = (stop_and_transcribe st env).2 from rfl,
      sat_empty st env t htmp h0 he]
    simp
  · intro hmem
    rcases htmp : st.tmpfile with _ | t
    · rw [show endEffs st env = (stop_and_transcribe st env).2 from rfl,
        sat_none st env htmp] at hmem
      simp at hmem
    · by_cases h0 : 0 < env.fileSize
      · rcases henv : env.transcribeResult with e | text
        · rw [show endEffs st env = (stop_and_transcribe st env).2 from rfl,
            sat_error st env t e htmp h0 henv] at hmem
          simp at hmem
        · by_cases ht : text = ""
          · subst ht
            rw [show endEffs st env = (stop_and_transcribe st env).2 from rfl,
              sat_empty st env t htmp h0 henv] at hmem
            simp at hmem
          · exact ⟨text, rfl, ht⟩
      · have h0' : env.fileSize = 0 := by omega
        rw [show endEffs st env = (stop_and_transcribe st env).2 from rfl,
          sat_noaudio st env t htmp h0'] at hmem
        simp at hmem

/-- The environment of the silence scenario: a non-empty recorded file whose
transcription succeeds with empty text. -/
def silenceEnv : Env :=
  { fileSize := 64044
    transcribeResult := .ok ""
    xclipOk := true
    isTerminal := false
    xdotoolOk := true }

/-- Witness for C3 on the silence scenario: two seconds of silence recorded,
transcription returns the empty string, the `(empty)` status is reported and
no clipboard write occurs. -/
theorem c3_witness :
    activeState.tmpfile = some 0 ∧ 0 < silenceEnv.fileSize ∧
    silenceEnv.transcribeResult = .ok "" ∧
    Eff.printEmpty ∈ endEffs activeState silenceEnv ∧
    Eff.networkCall ∈ endEffs activeState silenceEnv ∧
    (∀ s, Eff.clipboardWrite s ∉ endEffs activeState silenceEnv) ∧
    Eff.pasteKey ∉ endEffs activeState silenceEnv ∧
    Eff.beepReady ∉ endEffs activeState silenceEnv := by
  obtain ⟨_, h2, _⟩ := c3_end_command_outcomes activeState silenceEnv
  obtain ⟨g1, g2, g3, g4, g5⟩ := h2 0 (by decide) (by decide) rfl
  exact ⟨by decide, by decide, rfl, g1, g2, g3, g4, g5⟩
